import Mathlib

/-
Verification of the torrent-addition workflow of qbittorrent-rust
(src/qbittorrent_rust/src/api_fns/torrents/add_torrent.rs): the
TorrentAddDescriptor builder, the multipart payload assembly (thing,
torrents_part) and the orchestrator torrents_add_torrent.

The transport layer (reqwest), the file system (tokio::fs) and the
session cookie are modelled as an explicit environment; a send outcome is
either a transport-level error or a completed response with a status
code.  torrents_add_torrent returns, besides its Result, the trace of
multipart forms actually handed to the transport, so that claims about
"no network call is made" are statable.
-/

namespace QbitRust

/-- Modelled from the spec: the input variant of a torrent source — either a
remote URL/magnet link or a local raw torrent file path.  The defining
module (api_fns/torrents/torrents.rs, enum TorrentInner) is not under
src/; add_torrent.rs matches on exactly these two cases. -/
inductive TorrentInner where
  | Url (url : String)
  | RawTorrent (path : String)
  deriving DecidableEq

/-- Modelled from the spec: the caller-facing Torrent wrapper whose
get_inner exposes the inner variant (api_fns/torrents/torrents.rs is not
under src/). -/
structure Torrent where
  inner : TorrentInner
  deriving DecidableEq

def Torrent.get_inner (t : Torrent) : TorrentInner := t.inner

/-- Modelled from the spec: SepVec from misc/sep_vec.rs (not under src/) — a
vector together with a separator; its Display joins the entries with the
separator placed between consecutive entries. -/
structure SepVec (T : Type) (S : Type) where
  vec : List T
  sep : S
  deriving DecidableEq

def SepVec.inner_vec {T S : Type} (sv : SepVec T S) : List T := sv.vec

/-- Display of a SepVec with a String separator: entries joined with the
separator between them. -/
def SepVec.render (sv : SepVec String String) : String :=
  String.intercalate sv.sep sv.vec

/-- Display of a SepVec with a Char separator. -/
def SepVec.renderChar (sv : SepVec String Char) : String :=
  String.intercalate (String.mk [sv.sep]) sv.vec

/-- Modelled from the spec: the error kinds that add_torrent.rs constructs
(the error_handling module is not under src/).  ReqwestError wraps an
opaque transport-level failure, MiscNetError carries a response status
code, MiscError carries a human-readable reason. -/
inductive ErrorType where
  | TorrentsNotSet
  | TorrentFilePathError
  | ReqwestError (e : String)
  | MiscNetError (code : Nat)
  | MiscError (msg : String)
  deriving DecidableEq

/-- Modelled from the spec: Error as built by Error::build(error_type,
code) — an error kind paired with an optional status code. -/
structure Error where
  error_type : ErrorType
  code : Option Nat
  deriving DecidableEq

def Error.build (t : ErrorType) (c : Option Nat) : Error := ⟨t, c⟩

/-- An f32 setting (ratio_limit) as carried by the descriptor: the program
only ever consumes its Display rendering, so it is embedded as that
rendered string. -/
structure F32 where
  render : String
  deriving DecidableEq

/-- The finalized descriptor (struct TorrentAddDescriptor,
add_torrent.rs lines 20-69). -/
structure TorrentAddDescriptor where
  urls : SepVec String String
  paths : List String
  savepath : Option String
  cookie : Option String
  category : Option String
  tags : Option (SepVec String Char)
  skip_checking : Option Bool
  paused : Option Bool
  root_folder : Option String
  rename : Option String
  up_limit : Option Nat
  dl_limit : Option Nat
  ratio_limit : Option F32
  seeding_time_limit : Option Nat
  auto_tmm : Option Bool
  sequential_download : Option Bool
  first_last_piece_prio : Option Bool
  deriving DecidableEq

/-- The builder (struct TorrentAddDescriptorBuilder, add_torrent.rs lines
120-168). -/
structure TorrentAddDescriptorBuilder where
  torrents : Option (List Torrent)
  savepath : Option String
  cookie : Option String
  category : Option String
  tags : Option (List String)
  skip_checking : Option Bool
  paused : Option Bool
  root_folder : Option Bool
  rename : Option String
  up_limit : Option Nat
  dl_limit : Option Nat
  ratio_limit : Option F32
  seeding_time_limit : Option Nat
  auto_tmm : Option Bool
  sequential_download : Option Bool
  first_last_piece_prio : Option Bool
  deriving DecidableEq

/-- TorrentAddDescriptorBuilder::new (add_torrent.rs lines 176-195). -/
def TorrentAddDescriptorBuilder.new (torrents : List Torrent) :
    TorrentAddDescriptorBuilder :=
  ⟨some torrents, none, none, none, none, none, none, none, none, none,
    none, none, none, none, none, none⟩

/-- One iteration of the partition loop in build (add_torrent.rs lines
211-220): a Url is pushed onto vec_urls, a RawTorrent onto vec_paths. -/
def partitionStep (acc : List String × List String) (item : TorrentInner) :
    List String × List String :=
  match item with
  | .Url url => (acc.1 ++ [url], acc.2)
  | .RawTorrent path => (acc.1, acc.2 ++ [path])

/-- The partition loop of build over the batch. -/
def partitionTorrents (t : List Torrent) : List String × List String :=
  (t.map Torrent.get_inner).foldl partitionStep ([], [])

/-- TorrentAddDescriptorBuilder::build (add_torrent.rs lines 202-257). -/
def TorrentAddDescriptorBuilder.build (self : TorrentAddDescriptorBuilder) :
    Except Error TorrentAddDescriptor :=
  match self.torrents with
  | none => .error (Error.build .TorrentsNotSet none)
  | some t =>
    if t.isEmpty then
      .error (Error.build .TorrentsNotSet none)
    else
      let pair := partitionTorrents t
      let urls : SepVec String String := ⟨pair.1, ""⟩
      let paths := pair.2
      let tags := self.tags.map (fun v => (⟨v, ','⟩ : SepVec String Char))
      let root_folder :=
        match self.root_folder with
        | none => "unset"
        | some true => "true"
        | some false => "false"
      .ok ⟨urls, paths, self.savepath, self.cookie, self.category, tags,
        self.skip_checking, self.paused, some root_folder, self.rename,
        self.up_limit, self.dl_limit, self.ratio_limit,
        self.seeding_time_limit, self.auto_tmm, self.sequential_download,
        self.first_last_piece_prio⟩

/-- TorrentAddDescriptor::builder (add_torrent.rs lines 85-87). -/
def TorrentAddDescriptor.builder (torrents : List Torrent) :
    TorrentAddDescriptorBuilder :=
  TorrentAddDescriptorBuilder.new torrents

/-- TorrentAddDescriptor::new (add_torrent.rs lines 76-78). -/
def TorrentAddDescriptor.new (torrents : List Torrent) :
    Except Error TorrentAddDescriptor :=
  (TorrentAddDescriptor.builder torrents).build

/-- One part of a reqwest multipart form: either a named text field or a
named binary file part with filename, MIME type and content bytes. -/
inductive Part where
  | text (name : String) (value : String)
  | file (name : String) (filename : String) (mime : String) (bytes : List Nat)
  deriving DecidableEq

/-- Rust bool Display. -/
def rustBool (b : Bool) : String := if b then "true" else "false"

/-- fn thing (add_torrent.rs lines 378-443): appends every present optional
setting of the descriptor to a form as a text field, in source order. -/
def thing (form : List Part) (descriptor : TorrentAddDescriptor) : List Part :=
  let form := match descriptor.savepath with
    | some savepath => form ++ [Part.text "savepath" savepath]
    | none => form
  let form := match descriptor.cookie with
    | some cookie => form ++ [Part.text "cookie" cookie]
    | none => form
  let form := match descriptor.category with
    | some category => form ++ [Part.text "category" category]
    | none => form
  let form := match descriptor.tags with
    | some tags => form ++ [Part.text "tags" tags.renderChar]
    | none => form
  let form := match descriptor.skip_checking with
    | some skip_checking => form ++ [Part.text "skip_checking" (rustBool skip_checking)]
    | none => form
  let form := match descriptor.paused with
    | some paused => form ++ [Part.text "paused" (rustBool paused)]
    | none => form
  let form := match descriptor.root_folder with
    | some root_folder => form ++ [Part.text "root_folder" root_folder]
    | none => form
  let form := match descriptor.rename with
    | some rename => form ++ [Part.text "rename" rename]
    | none => form
  let form := match descriptor.up_limit with
    | some up_limit => form ++ [Part.text "upLimit" (toString up_limit)]
    | none => form
  let form := match descriptor.dl_limit with
    | some dl_limit => form ++ [Part.text "dlLimit" (toString dl_limit)]
    | none => form
  let form := match descriptor.ratio_limit with
    | some ratio_limit => form ++ [Part.text "ratioLimit" ratio_limit.render]
    | none => form
  let form := match descriptor.seeding_time_limit with
    | some seeding_time_limit => form ++ [Part.text "seedingTimeLimit" (toString seeding_time_limit)]
    | none => form
  let form := match descriptor.auto_tmm with
    | some auto_tmm => form ++ [Part.text "autoTMM" (rustBool auto_tmm)]
    | none => form
  let form := match descriptor.sequential_download with
    | some sequential_download => form ++ [Part.text "sequentialDownload" (rustBool sequential_download)]
    | none => form
  let form := match descriptor.first_last_piece_prio with
    | some first_last_piece_prio => form ++ [Part.text "firstLastPiecePrio" (rustBool first_last_piece_prio)]
    | none => form
  form

/-- The local file system: a path maps to the file's bytes, or to none when
the file cannot be opened or fully read (either failure is mapped by
torrents_part to TorrentFilePathError). -/
def FileSystem : Type := String → Option (List Nat)

/-- The loop body of torrents_part (add_torrent.rs lines 449-467): for each
path in order, read the file (aborting with TorrentFilePathError on
failure) and append a binary part named "torrents" with the fixed
filename and MIME type. -/
def torrentsPartLoop (fs : FileSystem) (paths : List String)
    (form_torrents : List Part) : Except Error (List Part) :=
  match paths with
  | [] => .ok form_torrents
  | path :: rest =>
    match fs path with
    | none => .error (Error.build .TorrentFilePathError none)
    | some buffer =>
      torrentsPartLoop fs rest
        (form_torrents ++
          [Part.file "torrents" "torrent_file.torrent" "application/x-bittorrent" buffer])

/-- fn torrents_part (add_torrent.rs lines 445-469). -/
def torrents_part (fs : FileSystem) (descriptor : TorrentAddDescriptor) :
    Except Error (List Part) :=
  torrentsPartLoop fs descriptor.paths []

/-- The outcome of one transport send: a transport-level failure (reqwest
error), or a completed response carrying a status code. -/
inductive SendOutcome where
  | transportErr (e : String)
  | status (code : Nat)
  deriving DecidableEq

/-- reqwest StatusCode::is_success: 200 ≤ code < 300. -/
def isSuccessStatus (code : Nat) : Bool := decide (200 ≤ code ∧ code < 300)

/-- Result of torrents_add_torrent: Ok(()), an Error, or the panic of the
(paths-empty, urls-empty) branch. -/
inductive AddResult where
  | ok
  | err (e : Error)
  | panicked
  deriving DecidableEq

/-- The environment of one torrents_add_torrent call: the session cookie
accessor (which may fail), the file system, and the transport outcome of
the file-payload send and of the url-payload send. -/
structure Env where
  cookie : Except Error String
  fs : FileSystem
  torrentsSend : SendOutcome
  urlsSend : SendOutcome

/-- QbitApi::torrents_add_torrent (add_torrent.rs lines 263-375).  Returns
the result together with the trace of multipart forms handed to the
transport.  In the (false, false) branch both requests are built, then
tokio::join! completes both sends; afterwards the code applies `?` first
to the torrents response and then to the urls response, so a
transport-level error is returned as a ReqwestError without entering the
four-way match on the two success booleans; the status-code extraction of
the code! macro (not under src/) is modelled as the response's status. -/
def torrents_add_torrent (env : Env) (descriptor : TorrentAddDescriptor) :
    AddResult × List (List Part) :=
  match descriptor.paths.isEmpty, descriptor.urls.inner_vec.isEmpty with
  | true, true => (.panicked, [])
  | true, false =>
    let form_urls := thing [Part.text "urls" descriptor.urls.render] descriptor
    match env.cookie with
    | .error e => (.err e, [])
    | .ok _ =>
      match env.urlsSend with
      | .transportErr e => (.err (Error.build (.ReqwestError e) none), [form_urls])
      | .status code =>
        if isSuccessStatus code then (.ok, [form_urls])
        else (.err (Error.build (.MiscNetError code) (some code)), [form_urls])
  | false, true =>
    match torrents_part env.fs descriptor with
    | .error e => (.err e, [])
    | .ok form =>
      match env.cookie with
      | .error e => (.err e, [])
      | .ok _ =>
        match env.torrentsSend with
        | .transportErr e => (.err (Error.build (.ReqwestError e) none), [form])
        | .status code =>
          if isSuccessStatus code then (.ok, [form])
          else (.err (Error.build (.MiscNetError code) (some code)), [form])
  | false, false =>
    match torrents_part env.fs descriptor with
    | .error e => (.err e, [])
    | .ok form_torrents =>
      match env.cookie with
      | .error e => (.err e, [])
      | .ok _ =>
        let form_urls := thing [Part.text "urls" descriptor.urls.render] descriptor
        let trace := [form_torrents, form_urls]
        match env.torrentsSend with
        | .transportErr e => (.err (Error.build (.ReqwestError e) none), trace)
        | .status codeTorrents =>
          match env.urlsSend with
          | .transportErr e => (.err (Error.build (.ReqwestError e) none), trace)
          | .status codeUrls =>
            match isSuccessStatus codeTorrents, isSuccessStatus codeUrls with
            | true, true => (.ok, trace)
            | true, false =>
              (.err (Error.build
                (.MiscError "something went wrong while adding urls.") none), trace)
            | false, true =>
              (.err (Error.build
                (.MiscError "something went wrong while adding torrent files.") none), trace)
            | false, false =>
              (.err (Error.build
                (.MiscError "wow, you really messed up. both torrents and urls failed.") none), trace)

/-- The url extracted from a torrent, when it is a Url. -/
def urlOf (t : Torrent) : Option String :=
  match t.inner with
  | .Url u => some u
  | .RawTorrent _ => none

/-- The path extracted from a torrent, when it is a RawTorrent. -/
def pathOf (t : Torrent) : Option String :=
  match t.inner with
  | .Url _ => none
  | .RawTorrent p => some p

theorem foldl_partitionStep (t : List Torrent) :
    ∀ acc : List String × List String,
      (t.map Torrent.get_inner).foldl partitionStep acc =
        (acc.1 ++ t.filterMap urlOf, acc.2 ++ t.filterMap pathOf) := by
  induction t with
  | nil => intro acc; simp
  | cons hd tl ih =>
    intro acc
    cases h : hd.inner with
    | Url u =>
      simp [Torrent.get_inner, partitionStep, h, ih, urlOf, pathOf,
        List.filterMap_cons, List.append_assoc]
    | RawTorrent p =>
      simp [Torrent.get_inner, partitionStep, h, ih, urlOf, pathOf,
        List.filterMap_cons, List.append_assoc]

theorem partitionTorrents_eq (t : List Torrent) :
    partitionTorrents t = (t.filterMap urlOf, t.filterMap pathOf) := by
  simp [partitionTorrents, foldl_partitionStep]

theorem length_filterMap_url_path (t : List Torrent) :
    (t.filterMap urlOf).length + (t.filterMap pathOf).length = t.length := by
  induction t with
  | nil => simp
  | cons hd tl ih =>
    cases h : hd.inner with
    | Url u =>
      simp only [List.filterMap_cons, urlOf, pathOf, h, List.length_cons]
      omega
    | RawTorrent p =>
      simp only [List.filterMap_cons, urlOf, pathOf, h, List.length_cons]
      omega

theorem build_some_nonempty (b : TorrentAddDescriptorBuilder) (t : List Torrent)
    (hb : b.torrents = some t) (he : t ≠ []) :
    b.build = .ok ⟨⟨t.filterMap urlOf, ""⟩, t.filterMap pathOf, b.savepath,
      b.cookie, b.category, b.tags.map (fun v => ⟨v, ','⟩), b.skip_checking,
      b.paused,
      some (match b.root_folder with
        | none => "unset" | some true => "true" | some false => "false"),
      b.rename, b.up_limit, b.dl_limit, b.ratio_limit, b.seeding_time_limit,
      b.auto_tmm, b.sequential_download, b.first_last_piece_prio⟩ := by
  cases t with
  | nil => exact absurd rfl he
  | cons a as =>
    simp [TorrentAddDescriptorBuilder.build, hb, partitionTorrents_eq]

theorem build_ok_torrents (b : TorrentAddDescriptorBuilder)
    (d : TorrentAddDescriptor) (hd : b.build = .ok d) :
    ∃ t, b.torrents = some t ∧ t ≠ [] := by
  cases hb : b.torrents with
  | none => simp [TorrentAddDescriptorBuilder.build, hb] at hd
  | some t =>
    refine ⟨t, rfl, ?_⟩
    rintro rfl
    simp [TorrentAddDescriptorBuilder.build, hb] at hd

theorem build_ok_fields (b : TorrentAddDescriptorBuilder) (t : List Torrent)
    (d : TorrentAddDescriptor) (hb : b.torrents = some t)
    (hd : b.build = .ok d) :
    t ≠ [] ∧
    d.urls = ⟨t.filterMap urlOf, ""⟩ ∧ d.paths = t.filterMap pathOf ∧
    d.root_folder = some (match b.root_folder with
      | none => "unset" | some true => "true" | some false => "false") := by
  have he : t ≠ [] := by
    rintro rfl
    simp [TorrentAddDescriptorBuilder.build, hb] at hd
  rw [build_some_nonempty b t hb he] at hd
  obtain rfl := (Except.ok.inj hd).symm
  exact ⟨he, rfl, rfl, rfl⟩

theorem add_torrent_ne_panicked (env : Env) (d : TorrentAddDescriptor)
    (h : ¬(d.paths.isEmpty = true ∧ d.urls.inner_vec.isEmpty = true)) :
    (torrents_add_torrent env d).1 ≠ .panicked := by
  unfold torrents_add_torrent
  split
  next h1 h2 => exact absurd ⟨h1, h2⟩ h
  all_goals repeat' split
  all_goals simp

theorem torrentsPartLoop_fail (fs : FileSystem) :
    ∀ (paths : List String) (acc : List Part),
      (∃ p ∈ paths, fs p = none) →
      torrentsPartLoop fs paths acc =
        .error (Error.build .TorrentFilePathError none) := by
  intro paths
  induction paths with
  | nil =>
    rintro acc ⟨p, hp, -⟩
    cases hp
  | cons q rest ih =>
    rintro acc ⟨p, hp, hpn⟩
    cases hq : fs q with
    | none => simp [torrentsPartLoop, hq]
    | some buf =>
      rcases List.mem_cons.mp hp with rfl | hmem
      · rw [hq] at hpn; cases hpn
      · simpa [torrentsPartLoop, hq] using ih _ ⟨p, hmem, hpn⟩

theorem torrentsPartLoop_parts (fs : FileSystem) :
    ∀ (paths : List String) (acc form : List Part),
      torrentsPartLoop fs paths acc = .ok form →
      (∀ q ∈ acc, ∃ bytes,
        q = Part.file "torrents" "torrent_file.torrent" "application/x-bittorrent" bytes) →
      ∀ q ∈ form, ∃ bytes,
        q = Part.file "torrents" "torrent_file.torrent" "application/x-bittorrent" bytes := by
  intro paths
  induction paths with
  | nil =>
    intro acc form h hacc
    simp only [torrentsPartLoop, Except.ok.injEq] at h
    subst h
    exact hacc
  | cons p rest ih =>
    intro acc form h hacc
    cases hp : fs p with
    | none => simp [torrentsPartLoop, hp] at h
    | some buf =>
      simp only [torrentsPartLoop, hp] at h
      refine ih _ form h ?_
      intro q hq
      rcases List.mem_append.mp hq with hq1 | hq2
      · exact hacc q hq1
      · exact ⟨buf, (List.mem_singleton.mp hq2)⟩

theorem add_torrent_part_error (env : Env) (d : TorrentAddDescriptor)
    (hp : d.paths.isEmpty = false) (e : Error)
    (herr : torrents_part env.fs d = .error e) :
    torrents_add_torrent env d = (.err e, []) := by
  cases hu : d.urls.inner_vec.isEmpty <;>
    simp [torrents_add_torrent, hp, hu, herr]

/-- A mixed example batch: two urls around one raw torrent file. -/
def exBatch : List Torrent :=
  [⟨.Url "magnet:A"⟩, ⟨.RawTorrent "/tmp/a.torrent"⟩, ⟨.Url "magnet:B"⟩]

/-- The descriptor that build produces from exBatch with all settings
unset. -/
def exDescBuilt : TorrentAddDescriptor :=
  ⟨⟨["magnet:A", "magnet:B"], ""⟩, ["/tmp/a.torrent"], none, none, none,
    none, none, none, some "unset", none, none, none, none, none, none,
    none, none⟩

/-- An example file system holding one torrent file. -/
def exFs : FileSystem := fun p => if p = "a.torrent" then some [1, 2] else none

/-- An example descriptor with both source kinds and a present savepath
setting. -/
def exDescBoth : TorrentAddDescriptor :=
  ⟨⟨["u"], ""⟩, ["a.torrent"], some "s", none, none, none, none, none,
    none, none, none, none, none, none, none, none, none⟩

/-- An example descriptor with only urls. -/
def exDescUrls : TorrentAddDescriptor :=
  ⟨⟨["magnet:A"], ""⟩, [], none, none, none, none, none, none, none, none,
    none, none, none, none, none, none, none⟩

/-- The file-payload torrents_part builds from exDescBoth over exFs. -/
def exFilePart : List Part :=
  [Part.file "torrents" "torrent_file.torrent" "application/x-bittorrent" [1, 2]]

/-- Environment: both sends succeed with HTTP 200. -/
def exEnvOk : Env := ⟨.ok "sid", exFs, .status 200, .status 200⟩

/-- Environment: torrents send fails at transport level, urls send
completes with HTTP 200. -/
def exEnvC1 : Env := ⟨.ok "sid", exFs, .transportErr "connection refused", .status 200⟩

/-- Environment: torrents send completes with HTTP 200, urls send with
HTTP 403. -/
def exEnvUrls403 : Env := ⟨.ok "sid", exFs, .status 200, .status 403⟩

/-- Environment whose file system has no readable file. -/
def exEnvMissing : Env := ⟨.ok "sid", fun _ => none, .status 200, .status 200⟩

/-- C4: build() returns a TorrentsNotSet error whenever the torrents batch
is absent or the empty vector (so it never returns a descriptor there),
and on a non-empty batch it succeeds, hence never returns
TorrentsNotSet. -/
theorem c4_build_torrents_not_set (b : TorrentAddDescriptorBuilder) :
    ((b.torrents = none ∨ b.torrents = some []) →
      b.build = .error (Error.build .TorrentsNotSet none)) ∧
    (∀ t, b.torrents = some t → t ≠ [] → ∃ d, b.build = .ok d) := by
  constructor
  · rintro (hb | hb) <;> simp [TorrentAddDescriptorBuilder.build, hb]
  · intro t hb ht
    exact ⟨_, build_some_nonempty b t hb ht⟩

theorem c4_build_torrents_not_set_witness :
    (TorrentAddDescriptorBuilder.new []).build =
      .error (Error.build .TorrentsNotSet none) ∧
    (∃ d, (TorrentAddDescriptorBuilder.new [⟨.Url "magnet:A"⟩]).build = .ok d) :=
  ⟨(c4_build_torrents_not_set _).1 (Or.inr rfl),
    (c4_build_torrents_not_set _).2 [⟨.Url "magnet:A"⟩] rfl (by simp)⟩

/-- C5: for a batch accepted by build, the urls sequence is the
order-preserving extraction of the Url entries and the paths sequence
that of the RawTorrent entries (a stable partition), and the two lengths
sum to the batch length, so every input element lands in exactly one of
the two sequences exactly once. -/
theorem c5_build_partition (b : TorrentAddDescriptorBuilder)
    (t : List Torrent) (d : TorrentAddDescriptor) (hb : b.torrents = some t)
    (hd : b.build = .ok d) :
    d.urls.inner_vec = t.filterMap urlOf ∧ d.paths = t.filterMap pathOf ∧
    d.urls.inner_vec.length + d.paths.length = t.length := by
  obtain ⟨-, hurls, hpaths, -⟩ := build_ok_fields b t d hb hd
  refine ⟨?_, hpaths, ?_⟩
  · rw [hurls]; rfl
  · rw [hurls, hpaths]
    exact length_filterMap_url_path t

theorem c5_build_partition_witness :
    (TorrentAddDescriptorBuilder.new exBatch).build = .ok exDescBuilt ∧
    (exDescBuilt.urls.inner_vec = exBatch.filterMap urlOf ∧
      exDescBuilt.paths = exBatch.filterMap pathOf ∧
      exDescBuilt.urls.inner_vec.length + exDescBuilt.paths.length =
        exBatch.length) :=
  ⟨rfl,
    c5_build_partition (TorrentAddDescriptorBuilder.new exBatch) exBatch
      exDescBuilt rfl rfl⟩

/-- C6: the root-folder normalization of build is total and deterministic:
an unset root_folder yields "unset", Some(true) yields "true", Some(false)
yields "false" in the built descriptor. -/
theorem c6_root_folder_normalization (b : TorrentAddDescriptorBuilder)
    (d : TorrentAddDescriptor) (hd : b.build = .ok d) :
    (b.root_folder = none → d.root_folder = some "unset") ∧
    (b.root_folder = some true → d.root_folder = some "true") ∧
    (b.root_folder = some false → d.root_folder = some "false") := by
  obtain ⟨t, hb, -⟩ := build_ok_torrents b d hd
  obtain ⟨-, -, -, hroot⟩ := build_ok_fields b t d hb hd
  refine ⟨?_, ?_, ?_⟩ <;> intro h <;> rw [hroot, h]

theorem c6_root_folder_normalization_witness :
    exDescBuilt.root_folder = some "unset" :=
  (c6_root_folder_normalization (TorrentAddDescriptorBuilder.new exBatch)
    exDescBuilt rfl).1 rfl

/-- C10: every descriptor produced by build (hence also by
TorrentAddDescriptor::new, which delegates to build) has a non-empty urls
or paths sequence, so the panicking (paths-empty, urls-empty) branch of
torrents_add_torrent is unreachable on it. -/
theorem c10_build_no_panic (b : TorrentAddDescriptorBuilder)
    (d : TorrentAddDescriptor) (hd : b.build = .ok d) (env : Env) :
    (torrents_add_torrent env d).1 ≠ .panicked := by
  obtain ⟨t, hb, ht⟩ := build_ok_torrents b d hd
  obtain ⟨-, hurls, hpaths, -⟩ := build_ok_fields b t d hb hd
  refine add_torrent_ne_panicked env d ?_
  rintro ⟨hp, hu⟩
  simp only [List.isEmpty_eq_true] at hp hu
  rw [hpaths] at hp
  rw [hurls] at hu
  simp only [SepVec.inner_vec] at hu
  have hlen := length_filterMap_url_path t
  rw [hp, hu] at hlen
  simp only [List.length_nil] at hlen
  have hzero : t.length = 0 := by omega
  exact ht (List.length_eq_zero.mp hzero)

theorem c10_build_no_panic_witness :
    (torrents_add_torrent exEnvOk exDescBuilt).1 ≠ .panicked :=
  c10_build_no_panic (TorrentAddDescriptorBuilder.new exBatch) exDescBuilt
    rfl exEnvOk

/-- C3: in the two-payload case, when both sends complete with a status
the reconciled outcome follows the literal truth table on
(torrents-ok, urls-ok): both ok yields success, only urls failing yields
the urls-add failure, only the torrents send failing yields the
torrent-files-add failure, both failing yields the both-failed failure. -/
theorem c3_reconciliation_table (env : Env) (d : TorrentAddDescriptor)
    (hp : d.paths.isEmpty = false) (hu : d.urls.inner_vec.isEmpty = false)
    (ck : String) (hck : env.cookie = .ok ck)
    (ft : List Part) (hft : torrents_part env.fs d = .ok ft)
    (c1 c2 : Nat) (h1 : env.torrentsSend = .status c1)
    (h2 : env.urlsSend = .status c2) :
    (torrents_add_torrent env d).1 =
      match isSuccessStatus c1, isSuccessStatus c2 with
      | true, true => .ok
      | true, false =>
        .err (Error.build
          (.MiscError "something went wrong while adding urls.") none)
      | false, true =>
        .err (Error.build
          (.MiscError "something went wrong while adding torrent files.") none)
      | false, false =>
        .err (Error.build
          (.MiscError "wow, you really messed up. both torrents and urls failed.") none) := by
  cases hs1 : isSuccessStatus c1 <;> cases hs2 : isSuccessStatus c2 <;>
    simp [torrents_add_torrent, hp, hu, hck, hft, h1, h2, hs1, hs2]

theorem c3_reconciliation_table_witness :
    (torrents_add_torrent exEnvUrls403 exDescBoth).1 =
      match isSuccessStatus 200, isSuccessStatus 403 with
      | true, true => AddResult.ok
      | true, false =>
        .err (Error.build
          (.MiscError "something went wrong while adding urls.") none)
      | false, true =>
        .err (Error.build
          (.MiscError "something went wrong while adding torrent files.") none)
      | false, false =>
        .err (Error.build
          (.MiscError "wow, you really messed up. both torrents and urls failed.") none) :=
  c3_reconciliation_table exEnvUrls403 exDescBoth rfl rfl "sid" rfl
    exFilePart rfl 200 403 rfl rfl

/-- C7: with exactly one non-empty source kind (and payload construction
and cookie retrieval succeeding), exactly one request is handed to the
transport; the call returns Ok iff the transport reports a success
status, and a completed non-success status c is surfaced as a network
error carrying c. -/
theorem c7_single_payload_send (env : Env) (d : TorrentAddDescriptor)
    (ck : String) (hck : env.cookie = .ok ck) :
    (d.paths.isEmpty = true → d.urls.inner_vec.isEmpty = false →
      (torrents_add_torrent env d).2.length = 1 ∧
      ((torrents_add_torrent env d).1 = .ok ↔
        ∃ c, env.urlsSend = .status c ∧ isSuccessStatus c = true) ∧
      (∀ c, env.urlsSend = .status c → isSuccessStatus c = false →
        (torrents_add_torrent env d).1 =
          .err (Error.build (.MiscNetError c) (some c)))) ∧
    (d.paths.isEmpty = false → d.urls.inner_vec.isEmpty = true →
      ∀ ft, torrents_part env.fs d = .ok ft →
      (torrents_add_torrent env d).2.length = 1 ∧
      ((torrents_add_torrent env d).1 = .ok ↔
        ∃ c, env.torrentsSend = .status c ∧ isSuccessStatus c = true) ∧
      (∀ c, env.torrentsSend = .status c → isSuccessStatus c = false →
        (torrents_add_torrent env d).1 =
          .err (Error.build (.MiscNetError c) (some c)))) := by
  constructor
  · intro hp hu
    cases hus : env.urlsSend with
    | transportErr m =>
      simp [torrents_add_torrent, hp, hu, hck, hus]
    | status c =>
      cases hs : isSuccessStatus c <;>
        simp [torrents_add_torrent, hp, hu, hck, hus, hs]
  · intro hp hu ft hft
    cases hts : env.torrentsSend with
    | transportErr m =>
      simp [torrents_add_torrent, hp, hu, hck, hft, hts]
    | status c =>
      cases hs : isSuccessStatus c <;>
        simp [torrents_add_torrent, hp, hu, hck, hft, hts, hs]

theorem c7_single_payload_send_witness :
    (torrents_add_torrent exEnvUrls403 exDescUrls).2.length = 1 ∧
    (torrents_add_torrent exEnvUrls403 exDescUrls).1 =
      .err (Error.build (.MiscNetError 403) (some 403)) := by
  have h := (c7_single_payload_send exEnvUrls403 exDescUrls "sid" rfl).1 rfl rfl
  exact ⟨h.1, h.2.2 403 rfl (by decide)⟩

/-- C8: when some listed file cannot be opened or fully read, torrents_part
fails with TorrentFilePathError and torrents_add_torrent surfaces exactly
that error with an empty transport trace: the operation aborts before any
network call is made and no partial subset of files is submitted. -/
theorem c8_file_read_failure_aborts (env : Env) (d : TorrentAddDescriptor)
    (hp : d.paths.isEmpty = false)
    (hfail : ∃ p ∈ d.paths, env.fs p = none) :
    torrents_part env.fs d = .error (Error.build .TorrentFilePathError none) ∧
    torrents_add_torrent env d =
      (.err (Error.build .TorrentFilePathError none), []) := by
  have h1 : torrents_part env.fs d =
      .error (Error.build .TorrentFilePathError none) :=
    torrentsPartLoop_fail env.fs d.paths [] hfail
  exact ⟨h1, add_torrent_part_error env d hp _ h1⟩

theorem c8_file_read_failure_aborts_witness :
    torrents_part exEnvMissing.fs exDescBoth =
      .error (Error.build .TorrentFilePathError none) ∧
    torrents_add_torrent exEnvMissing exDescBoth =
      (.err (Error.build .TorrentFilePathError none), []) :=
  c8_file_read_failure_aborts exEnvMissing exDescBoth rfl
    ⟨"a.torrent", by decide, rfl⟩

/-- C1 fails on the code: with both payload kinds present, the urls send
completing with HTTP 200 and the torrents send failing at transport
level, torrents_add_torrent returns the torrents call's transport error
alone (a ReqwestError), not the reconciled torrent-files-add failure. -/
theorem c1_counterexample :
    (torrents_add_torrent exEnvC1 exDescBoth).1 =
      .err (Error.build (.ReqwestError "connection refused") none) ∧
    (torrents_add_torrent exEnvC1 exDescBoth).1 ≠
      .err (Error.build
        (.MiscError "something went wrong while adding torrent files.") none) := by
  decide

/-- C1 (amended): in the two-payload case both sends complete and both
forms are handed to the transport before any outcome is examined, but a
transport-level error is not folded into the four-way reconciliation:
the function returns the torrents call's transport error alone as a
ReqwestError, and when the torrents call completed with a status it
returns the urls call's transport error alone; the four-way
reconciliation applies only when both sends complete with a status. -/
theorem c1_transport_error_propagated (env : Env) (d : TorrentAddDescriptor)
    (hp : d.paths.isEmpty = false) (hu : d.urls.inner_vec.isEmpty = false)
    (ck : String) (hck : env.cookie = .ok ck)
    (ft : List Part) (hft : torrents_part env.fs d = .ok ft) :
    (torrents_add_torrent env d).2.length = 2 ∧
    (∀ m, env.torrentsSend = .transportErr m →
      (torrents_add_torrent env d).1 =
        .err (Error.build (.ReqwestError m) none)) ∧
    (∀ c m, env.torrentsSend = .status c → env.urlsSend = .transportErr m →
      (torrents_add_torrent env d).1 =
        .err (Error.build (.ReqwestError m) none)) := by
  refine ⟨?_, ?_, ?_⟩
  · cases hts : env.torrentsSend with
    | transportErr m => simp [torrents_add_torrent, hp, hu, hck, hft, hts]
    | status c1 =>
      cases hus : env.urlsSend with
      | transportErr m =>
        simp [torrents_add_torrent, hp, hu, hck, hft, hts, hus]
      | status c2 =>
        cases hs1 : isSuccessStatus c1 <;> cases hs2 : isSuccessStatus c2 <;>
          simp [torrents_add_torrent, hp, hu, hck, hft, hts, hus, hs1, hs2]
  · intro m hts
    simp [torrents_add_torrent, hp, hu, hck, hft, hts]
  · intro c m hts hus
    simp [torrents_add_torrent, hp, hu, hck, hft, hts, hus]

theorem c1_transport_error_propagated_witness :
    (torrents_add_torrent exEnvC1 exDescBoth).2.length = 2 ∧
    (torrents_add_torrent exEnvC1 exDescBoth).1 =
      .err (Error.build (.ReqwestError "connection refused") none) := by
  have h := c1_transport_error_propagated exEnvC1 exDescBoth rfl rfl "sid" rfl
    exFilePart rfl
  exact ⟨h.1, h.2.1 "connection refused" rfl⟩

/-- C2 fails on the code: for a descriptor with a present savepath setting
and one file path, the file-payload built by torrents_part contains no
text field at all — in particular not the savepath field — while the
URL-payload built via thing does carry it. -/
theorem c2_counterexample :
    torrents_part exFs exDescBoth = .ok exFilePart ∧
    Part.text "savepath" "s" ∈
      thing [Part.text "urls" exDescBoth.urls.render] exDescBoth ∧
    Part.text "savepath" "s" ∉ exFilePart :=
  ⟨rfl, by decide, by decide⟩

/-- C2 (amended): every part of a file-payload built by torrents_part is a
binary file part named "torrents" with the fixed filename and MIME type:
the file-payload carries no optional-settings text fields at all, so when
both payloads exist only the URL-payload carries the rendered
optional-settings set. -/
theorem c2_file_payload_only_file_parts (fs : FileSystem)
    (d : TorrentAddDescriptor) (form : List Part)
    (h : torrents_part fs d = .ok form) :
    ∀ q ∈ form, ∃ bytes,
      q = Part.file "torrents" "torrent_file.torrent" "application/x-bittorrent" bytes := by
  refine torrentsPartLoop_parts fs d.paths [] form h ?_
  intro q hq
  simp at hq

theorem c2_file_payload_only_file_parts_witness :
    ∃ bytes,
      Part.file "torrents" "torrent_file.torrent" "application/x-bittorrent" [1, 2] =
        Part.file "torrents" "torrent_file.torrent" "application/x-bittorrent" bytes :=
  c2_file_payload_only_file_parts exFs exDescBoth exFilePart rfl
    (Part.file "torrents" "torrent_file.torrent" "application/x-bittorrent" [1, 2])
    (by decide)

end QbitRust
